import Mathlib

/-!
Shallow embedding of the Hernquist halo sampling library (src/halo.py) and
verification of its specification claims.

Conventions of the embedding:
* numpy float arithmetic on well-defined values is modelled by real arithmetic;
* `np.power(x, p)` with a float exponent on a positive base is `Real.rpow`;
* the generic rejection sampler is embedded over an arbitrary
  `LinearOrderedField` (the source is generic in the target function), with the
  stream of `np.random.rand(10)` draws passed explicitly as a list of rounds
  and the unbounded `while True` loop bounded by the length of that list;
* the numpy special values `inf`/`-inf`/`nan` that `_sigmasq_` manipulates are
  modelled by the four-constructor type `NpVal`;
* the ufunc `out` argument of `np.multiply`, which must be an ndarray and
  raises `TypeError` when given a Python float, is modelled by `NpOutArg`;
* in-place array mutation (`E[keys] = -1e-8` in `f_of_E`) is modelled by
  explicit state passing: `f_of_E` returns the post-call contents of its
  argument array alongside its result.
-/

namespace Halo

/-- One batch of candidate/threshold uniform draws: the source draws
`x = np.random.rand(10)` and `y = np.random.rand(10)` per loop iteration. -/
structure RSRound (α : Type) where
  xs : Fin 10 → α
  ys : Fin 10 → α

/-- Maximum of the ten evaluations `fn(x * xwidth)` of one round
(`np.max(fn_eval)` in the source).  Note the source scales the raw uniforms
by `xwidth = xrng[1] - xrng[0]` but never adds `xstart = xrng[0]`
(`xstart` is computed and then unused). -/
def roundMax {α : Type} [LinearOrderedField α] (fn : α → α) (xwidth : α)
    (r : RSRound α) : α :=
  Finset.univ.sup' Finset.univ_nonempty (fun i => fn (r.xs i * xwidth))

/-- Index of the first accepted candidate of a round:
`keys = np.where(y < fn_eval)[0]; sample = x[keys[0]]`.  The thresholds are
the raw uniforms scaled by `maxval`. -/
def firstHit {α : Type} [LinearOrderedField α] (fn : α → α) (xwidth maxval : α)
    (r : RSRound α) : Option (Fin 10) :=
  (List.finRange 10).find? (fun i => decide (r.ys i * maxval < fn (r.xs i * xwidth)))

/-- The `while True` loop of `rejection_sample`, consuming one `RSRound` per
iteration.  Returns the list of diagnostics printed (each is the pair of the
two numbers in the message `maxval exceeded. maxval= <old> max of fn_eval=
<max>`) and the accepted sample, `none` if the round list is exhausted first.
`np.any(fn_eval > maxval)` is `maxval < roundMax` over a linear order; on
violation the bound becomes `1.5 * np.max(fn_eval)` and the loop continues,
discarding the round. -/
def rsRun {α : Type} [LinearOrderedField α] (fn : α → α) (xrng : α × α) :
    α → List (RSRound α) → List (α × α) × Option α
  | _, [] => ([], none)
  | maxval, r :: rest =>
    let xwidth := xrng.2 - xrng.1
    let m := roundMax fn xwidth r
    if maxval < m then
      let out := rsRun fn xrng (1.5 * m) rest
      ((maxval, m) :: out.1, out.2)
    else
      match firstHit fn xwidth maxval r with
      | some i => ([], some (r.xs i * xwidth))
      | none => rsRun fn xrng maxval rest

/-- Embedding of `rejection_sample(fn, maxval, N, xrng, ...)`.  The source
binds `N_needed = np.copy(N)` and never reads it again; the dead parameters
`overshoot`, `dtype` and `fn_args` are omitted ( `fn_args` is pre-applied to
`fn`).  Exactly one scalar is returned on success. -/
def rejection_sample {α : Type} [LinearOrderedField α] (fn : α → α) (maxval : α)
    (N : ℕ) (xrng : α × α) (rounds : List (RSRound α)) : List (α × α) × Option α :=
  let N_needed := N
  let _ := N_needed
  rsRun fn xrng maxval rounds

/-- Concrete constant round used to evaluate the sampler on explicit inputs. -/
def cround : RSRound ℚ := ⟨fun _ => 1/2, fun _ => 1/10⟩

/-! Model constants (`_init_units_` with the default unit system). -/

noncomputable section

/-- Source constant `self._GRAVITY_ = 6.6738e-8`. -/
def GRAVITY : ℝ := 6.6738e-8

/-- Default `UnitLength_in_cm=3.085678e21`. -/
def UnitLength_in_cm : ℝ := 3.085678e21

/-- Default `UnitMass_in_g=1.989e43`. -/
def UnitMass_in_g : ℝ := 1.989e43

/-- Default `UnitVelocity_in_cm_per_s=1e5`. -/
def UnitVelocity_in_cm_per_s : ℝ := 1e5

/-- Source: `UnitTime_in_s = UnitLength_in_cm / UnitVelocity_in_cm_per_s`. -/
def UnitTime_in_s : ℝ := UnitLength_in_cm / UnitVelocity_in_cm_per_s

/-- Source: `G = GRAVITY * UnitLength**(-3.) * UnitMass * UnitTime**(2.)`;
the float power `x**(-3.)` of a positive base is the reciprocal cube. -/
def Gconst : ℝ := GRAVITY * (UnitLength_in_cm ^ 3)⁻¹ * UnitMass_in_g * UnitTime_in_s ^ 2

/-- Source: `vg = (G * M / a)**(0.5)`; `x**0.5` of a nonnegative base is the
square root. -/
def vg (M a : ℝ) : ℝ := Real.sqrt (Gconst * M / a)

/-- Source: `phi_of_0 = -G*M/a`. -/
def phi_of_0 (M a : ℝ) : ℝ := -(Gconst * M) / a

/-- Source: `f_prefactor = M / (8*sqrt(2)*pi**3*a**3*vg**3)`. -/
def f_prefactor (M a : ℝ) : ℝ :=
  M / (8 * Real.sqrt 2 * Real.pi ^ 3 * a ^ 3 * vg M a ^ 3)

/-- Source: `g_prefactor = (2*sqrt(2)*pi**2*a**3*vg) / 3`. -/
def g_prefactor (M a : ℝ) : ℝ :=
  2 * Real.sqrt 2 * Real.pi ^ 2 * a ^ 3 * vg M a / 3

/-- Source: `potential(r) = -G*M/(r+a)`. -/
def potential (M a r : ℝ) : ℝ := -(Gconst * M) / (r + a)

/-- Embedding of the njit kernel `_f_of_q(q, f_prefactor)` (Hernquist 1990
eq. 17 as implemented):
`(3 arcsin q + (1-2q²) q sqrt(1-q²) (8q⁴-8q²-3)) (1-q²)^(-5/2) f_prefactor`,
with the factors grouped as the numpy statements build them. -/
def f_of_q (M a q : ℝ) : ℝ :=
  (3 * Real.arcsin q +
      ((1 - q ^ 2) - q ^ 2) *
        (q * (Real.sqrt (1 - q ^ 2) * (8 * ((q ^ 2) ^ 2 - q ^ 2) - 3)))) *
    (1 - q ^ 2) ^ ((-5 : ℝ) / 2) * f_prefactor M a

/-- Embedding of `g_of_q(q)` (Hernquist 1990 eq. 23 as implemented):
`(3 (8q⁴-4q²+1) arccos q - q sqrt(1-q²) (4q²-1) (2q²+3)) q^(-5) g_prefactor`.
The in-place `out=` updates of the source build exactly this value in fresh
arrays. -/
def g_of_q (M a q : ℝ) : ℝ :=
  ((8 * (q ^ 2) ^ 2 - 4 * q ^ 2 + 1) * Real.arccos q * 3 -
      Real.sqrt (1 - q ^ 2) * (4 * q ^ 2 - 1) * (2 * q ^ 2 + 3) * q) *
    q ^ (-5 : ℝ) * g_prefactor M a

/-- Source `_dMdE_close_to_1_(q) = 0.5 * (32/35) * (M/vg**2) * (1 - q**2)`. -/
def dMdE_close_to_1 (M a q : ℝ) : ℝ :=
  0.5 * (32 / 35) * (M / vg M a ^ 2) * (1 - q ^ 2)

/-- Source `_dMdE_close_to_0_(q) = (16/5) * (M/vg**2) * (1 - (18/7) q**2)`. -/
def dMdE_close_to_0 (M a q : ℝ) : ℝ :=
  (16 / 5) * (M / vg M a ^ 2) * (1 - 18 / 7 * q ^ 2)

/-- Source: `E_of_q(q) = phi_of_0 * q**2`. -/
def E_of_q (M a q : ℝ) : ℝ := phi_of_0 M a * q ^ 2

/-- Source: `q_of_E(E) = sqrt(E / phi_of_0)`. -/
def q_of_E (M a E : ℝ) : ℝ := Real.sqrt (E / phi_of_0 M a)

/-- Element-wise semantics of `dMdE(E, convert_to_q)`: the value is
`f_of_q(q) * g_of_q(q)`, overwritten by `_dMdE_close_to_1_` where
`1 - q < 1e-4` and then by `_dMdE_close_to_0_` where `q < 1e-3`; the two
index sets are disjoint, so the final per-element value is as below. -/
def dMdE (M a E : ℝ) (convert_to_q : Bool) : ℝ :=
  let q := if convert_to_q then q_of_E M a E else E
  if q < 1e-3 then dMdE_close_to_0 M a q
  else if 1 - q < 1e-4 then dMdE_close_to_1 M a q
  else f_of_q M a q * g_of_q M a q

/-- The in-place clamp of `f_of_E`: entries with `E>0` and `E<1e-8`
(strictly: the open interval) are overwritten with `-1e-8`. -/
def clampE (x : ℝ) : ℝ := if 0 < x ∧ x < 1e-8 then -1e-8 else x

/-- Observable outcome of a call to `f_of_E(E)`: the energies printed by the
`E > 1e-2` diagnostic, the post-call contents of the caller's array `E`
(the function assigns `E[keys] = -1e-8` in place), and the returned values. -/
structure FOut where
  logs : List ℝ
  arr : List ℝ
  vals : List ℝ

/-- Embedding of `f_of_E(E)`: the diagnostic indices are computed from the
original array, the clamp is applied in place, and the result is
`f_of_q(q_of_E(E))` on the mutated array. -/
def f_of_E (M a : ℝ) (E : List ℝ) : FOut :=
  { logs := E.filter fun x => decide ((1e-2 : ℝ) < x)
    arr := E.map clampE
    vals := (E.map clampE).map fun e => f_of_q M a (q_of_E M a e) }

/-! Model of the numpy ufunc `out` argument and of Python exceptions raised
by the source. -/

/-- Exceptions raised by the embedded code paths. -/
inductive PyExn where
  | typeErrorOutNotArray
  | nameErrorPot

/-- Third positional argument of a numpy ufunc call such as
`np.multiply(x, y, out)`: either absent or a Python scalar.  numpy requires
`out` to be an ndarray (or None, or a tuple of them); a float raises
`TypeError`. -/
inductive NpOutArg where
  | noOut
  | scalarOut (v : ℝ)

/-- Embedding of `np.multiply(x1, x2, out)`: multiplies when no `out` is
passed, raises `TypeError` when `out` is a Python scalar. -/
def np_multiply (x y : ℝ) : NpOutArg → Except PyExn ℝ
  | NpOutArg.noOut => Except.ok (x * y)
  | NpOutArg.scalarOut _ => Except.error PyExn.typeErrorOutNotArray

/-- Embedding of `mass_enclosed(r)`:
`ans = np.multiply(np.power(rt, 2.), np.add(rt, 1.), -2.)` passes the float
`-2.` as the third positional (`out`) argument of `np.multiply`; then
`ans = np.multiply(ans, M)`.  (`a` is assumed nonzero, as everywhere in the
model: `rt = np.divide(r, a)`.) -/
def mass_enclosed (M a r : ℝ) : Except PyExn ℝ :=
  (np_multiply ((r / a) ^ 2) (r / a + 1) (NpOutArg.scalarOut (-2))).map fun ans => ans * M

/-! Embedding of `_init_maxval_list_` and construction (`__init__`). -/

/-- Semantics of `np.linspace(lo, hi, n)`. -/
def linspace (lo hi : ℝ) (n : ℕ) : List ℝ :=
  (List.range n).map fun (i : ℕ) => lo + (hi - lo) * (i : ℝ) / ((n : ℝ) - 1)

/-- Semantics of `np.logspace(lo, hi, n)` (base-10 powers of a linspace). -/
def logspace (lo hi : ℝ) (n : ℕ) : List ℝ :=
  (linspace lo hi n).map fun e => (10 : ℝ) ^ e

/-- `np.nanmax` over a list of well-defined reals (all uses are on nonempty
lists; the default value is irrelevant). -/
def nanmaxList (l : List ℝ) : ℝ := l.foldr max 0

/-- The loop body of `_init_maxval_list_`:
`maxval = np.nanmax(pot.my_f_of_vr(vlist, this_r)) * 2`.  The name `pot` is
resolved in the module's global namespace — the module `halo.py` defines no
module-level `pot` (every `pot` in the file is a function-local variable), so
on a fresh import the lookup raises `NameError`.  The resolution outcome is
the `potGlobal` parameter: `none` models the fresh module. -/
def buildMaxvalTable (potGlobal : Option (ℝ → ℝ → ℝ)) :
    List ℝ → List ℝ → Except PyExn (List ℝ)
  | [], _ => Except.ok []
  | _ :: _, [] => Except.ok []
  | r :: rs, vmax :: vs =>
    match potGlobal with
    | none => Except.error PyExn.nameErrorPot
    | some myf => do
      let rest ← buildMaxvalTable potGlobal rs vs
      Except.ok ((nanmaxList ((linspace 0 vmax 100).map fun v => myf v r) * 2) :: rest)

/-- Embedding of `_init_maxval_list_(log10rmin=-6, log10rmax=4, Ngrid=1e4)`:
the grid is `np.logspace(-6, 4, 10000)`, the speeds scanned at each radius are
`np.linspace(0, sqrt(2|potential|), 100)`. -/
def init_maxval_list (potGlobal : Option (ℝ → ℝ → ℝ)) (M a : ℝ) :
    Except PyExn (List ℝ × List ℝ) :=
  (buildMaxvalTable potGlobal (logspace (-6) 4 10000)
      (((logspace (-6) 4 10000).map (potential M a)).map
        fun p => Real.sqrt (2 * |p|))).map
    fun t => (logspace (-6) 4 10000, t)

/-- State of a constructed `Hernquist(M, a)` instance (the fields the claims
mention). -/
structure HState where
  M : ℝ
  a : ℝ
  r_list : List ℝ
  maxval_list : List ℝ

/-- Embedding of `Hernquist.__init__(M, a)` with the default unit system:
sets the derived constants and then calls `_init_maxval_list_()`. -/
def hernquist_init (M a : ℝ) (potGlobal : Option (ℝ → ℝ → ℝ)) :
    Except PyExn HState :=
  (init_maxval_list potGlobal M a).map fun t =>
    { M := M, a := a, r_list := t.1, maxval_list := t.2 }

/-! Model of the numpy special values handled by `_sigmasq_`. -/

/-- A numpy double that is finite, `inf`, `-inf`, or `nan`. -/
inductive NpVal where
  | fin (x : ℝ)
  | pinf
  | ninf
  | nan

/-- IEEE addition on `NpVal`. -/
def eadd : NpVal → NpVal → NpVal
  | NpVal.nan, _ => NpVal.nan
  | _, NpVal.nan => NpVal.nan
  | NpVal.fin x, NpVal.fin y => NpVal.fin (x + y)
  | NpVal.pinf, NpVal.ninf => NpVal.nan
  | NpVal.ninf, NpVal.pinf => NpVal.nan
  | NpVal.pinf, _ => NpVal.pinf
  | _, NpVal.pinf => NpVal.pinf
  | NpVal.ninf, _ => NpVal.ninf
  | _, NpVal.ninf => NpVal.ninf

/-- IEEE multiplication on `NpVal`; an infinity times zero is `nan`. -/
def emul : NpVal → NpVal → NpVal
  | NpVal.nan, _ => NpVal.nan
  | _, NpVal.nan => NpVal.nan
  | NpVal.fin x, NpVal.fin y => NpVal.fin (x * y)
  | NpVal.pinf, NpVal.fin y =>
    if 0 < y then NpVal.pinf else if y < 0 then NpVal.ninf else NpVal.nan
  | NpVal.fin x, NpVal.pinf =>
    if 0 < x then NpVal.pinf else if x < 0 then NpVal.ninf else NpVal.nan
  | NpVal.ninf, NpVal.fin y =>
    if 0 < y then NpVal.ninf else if y < 0 then NpVal.pinf else NpVal.nan
  | NpVal.fin x, NpVal.ninf =>
    if 0 < x then NpVal.ninf else if x < 0 then NpVal.pinf else NpVal.nan
  | NpVal.pinf, NpVal.pinf => NpVal.pinf
  | NpVal.ninf, NpVal.ninf => NpVal.pinf
  | NpVal.pinf, NpVal.ninf => NpVal.ninf
  | NpVal.ninf, NpVal.pinf => NpVal.ninf

/-- IEEE subtraction on `NpVal`. -/
def esub : NpVal → NpVal → NpVal
  | NpVal.nan, _ => NpVal.nan
  | _, NpVal.nan => NpVal.nan
  | NpVal.fin x, NpVal.fin y => NpVal.fin (x - y)
  | NpVal.pinf, NpVal.pinf => NpVal.nan
  | NpVal.ninf, NpVal.ninf => NpVal.nan
  | NpVal.pinf, _ => NpVal.pinf
  | NpVal.ninf, _ => NpVal.ninf
  | NpVal.fin _, NpVal.pinf => NpVal.ninf
  | NpVal.fin _, NpVal.ninf => NpVal.pinf

/-- IEEE division on `NpVal`; numpy's `np.divide(x, 0.)` is a signed
infinity (or `nan` for `0/0`). -/
def ediv : NpVal → NpVal → NpVal
  | NpVal.nan, _ => NpVal.nan
  | _, NpVal.nan => NpVal.nan
  | NpVal.fin x, NpVal.fin y =>
    if y = 0 then
      if 0 < x then NpVal.pinf else if x < 0 then NpVal.ninf else NpVal.nan
    else NpVal.fin (x / y)
  | NpVal.fin _, NpVal.pinf => NpVal.fin 0
  | NpVal.fin _, NpVal.ninf => NpVal.fin 0
  | NpVal.pinf, NpVal.fin y => if 0 ≤ y then NpVal.pinf else NpVal.ninf
  | NpVal.ninf, NpVal.fin y => if 0 ≤ y then NpVal.ninf else NpVal.pinf
  | _, _ => NpVal.nan

/-- IEEE logarithm on `NpVal`: `log(inf)=inf`, `log(0)=-inf`,
`log(x<0)=nan`. -/
def elog : NpVal → NpVal
  | NpVal.nan => NpVal.nan
  | NpVal.pinf => NpVal.pinf
  | NpVal.ninf => NpVal.nan
  | NpVal.fin x =>
    if 0 < x then NpVal.fin (Real.log x)
    else if x = 0 then NpVal.ninf else NpVal.nan

/-- `np.isnan` on the model. -/
def isnan : NpVal → Bool
  | NpVal.nan => true
  | _ => false

/-- The un-guarded closed form computed by `_sigmasq_` before its two fixups:
`prefactor * (12 rt (1+rt)³ log(1+1/rt) - (rt/(1+rt)) (25+52rt+42rt²+12rt³))`
with `prefactor = G M / (12 a)`.  The `ans2` sub-expression stays finite for
`rt ≥ 0` and is kept in real arithmetic; `ans1` passes through `1/rt`, where
`rt = 0` produces `inf` and then `inf * 0 = nan`. -/
def sigmasq_raw (M a r : ℝ) : NpVal :=
  let rt := r / a
  let oneplusrt := 1 + rt
  let ans1 :=
    emul (emul (elog (eadd (NpVal.fin 1) (ediv (NpVal.fin 1) (NpVal.fin rt))))
        (NpVal.fin (oneplusrt ^ 3)))
      (NpVal.fin (12 * rt))
  let ans2 := (25 + 52 * rt + 42 * rt ^ 2 + 12 * rt ^ 3) * (rt / oneplusrt)
  emul (NpVal.fin (Gconst * M / (12 * a))) (esub ans1 (NpVal.fin ans2))

/-- Embedding of `_sigmasq_(r)` (element-wise): the closed form, then the
`NaN` guard (`ans1[i] = 0` when `isnan` and `0 <= rt < 1e-12`), then the
large-radius override (`ans1[keys] = G M / 5 / r` where `rt > 300`). -/
def sigmasq (M a r : ℝ) : NpVal :=
  let rt := r / a
  let raw := sigmasq_raw M a r
  let guarded :=
    if isnan raw = true ∧ 0 ≤ rt ∧ rt < 1e-12 then NpVal.fin 0 else raw
  if 300 < rt then NpVal.fin (Gconst * M / 5 / r) else guarded

/-! Theorems. -/

/-- Helper: `Gconst` (the gravitational constant in the default unit system)
is positive. -/
theorem Gconst_pos : 0 < Gconst := by
  norm_num [Gconst, GRAVITY, UnitLength_in_cm, UnitMass_in_g, UnitTime_in_s,
    UnitVelocity_in_cm_per_s]

/-- Helper: `buildMaxvalTable` with an unresolvable `pot` raises `NameError`
as soon as both zipped lists are nonempty. -/
theorem buildMaxvalTable_none_err (l1 l2 : List ℝ) (h1 : l1 ≠ []) (h2 : l2 ≠ []) :
    buildMaxvalTable none l1 l2 = Except.error PyExn.nameErrorPot := by
  match l1, l2 with
  | [], _ => exact absurd rfl h1
  | _ :: _, [] => exact absurd rfl h2
  | r :: rs, v :: vs => rfl

/-- C10: `rejection_sample` returns the same (single-sample) result whatever
the value of its `N` argument: `N` is bound to the dead variable `N_needed`
and never influences the loop, which draws candidates in fixed batches of
ten per round. -/
theorem C10_rejection_sample_ignores_N {α : Type} [LinearOrderedField α]
    (fn : α → α) (maxval : α) (N N' : ℕ) (xrng : α × α)
    (rounds : List (RSRound α)) :
    rejection_sample fn maxval N xrng rounds =
      rejection_sample fn maxval N' xrng rounds := rfl

/-- C1: a concrete run of `rejection_sample` on the interval
`[lo, hi] = [-2, 0]` (the shape `draw_energies` uses, with `lo = Φ(r) < 0`)
accepts and returns the sample `1`, which lies outside `[-2, 0]`: the
source scales its uniform candidates by `hi - lo` but never adds `lo`. -/
theorem C1_sample_outside_interval :
    rejection_sample (fun _ => (1/2 : ℚ)) 1 1 (-2, 0)
        [⟨fun _ => 1/2, fun _ => 1/10⟩] = ([], some 1) ∧
      ¬((-2 : ℚ) ≤ 1 ∧ (1 : ℚ) ≤ 0) := by
  constructor
  · simp only [rejection_sample, rsRun, roundMax, firstHit]
    norm_num [Finset.sup'_const, List.finRange_succ_eq_map]
  · norm_num

/-- C3 (counterexample): in a concrete escalating run the only diagnostic
emitted is the pair `(1, 2)` — the old bound and the maximum observed target
value, exactly the two numbers printed by
`print('maxval exceeded. maxval=', maxval, 'max of fn_eval=', max)` — while
the new bound is `1.5 * 2 = 3`, which is neither of the numbers in the
diagnostic: the message names the old bound and the observed maximum, not
the new bound. -/
theorem C3_counterexample :
    rsRun (fun _ => (2 : ℚ)) (0, 1) 1 [cround, cround] = ([(1, 2)], some (1/2)) ∧
      (1.5 : ℚ) * 2 = 3 ∧ ((3 : ℚ) ≠ 1 ∧ (3 : ℚ) ≠ 2) := by
  refine ⟨?_, by norm_num, by norm_num, by norm_num⟩
  simp only [rsRun, roundMax, firstHit, cround]
  norm_num [Finset.sup'_const, List.finRange_succ_eq_map]

/-- C3 (amended): when any target evaluation of a round exceeds the current
bound, the sampler emits the diagnostic `(old bound, max observed value)`,
escalates the bound to `1.5 *` the maximum observed value, discards every
candidate of that round, and restarts: the returned sample is whatever the
restarted run with the escalated bound produces. -/
theorem C3_escalation_discards_round {α : Type} [LinearOrderedField α]
    (fn : α → α) (xrng : α × α) (maxval : α) (r : RSRound α)
    (rest : List (RSRound α))
    (h : maxval < roundMax fn (xrng.2 - xrng.1) r) :
    rsRun fn xrng maxval (r :: rest) =
      ((maxval, roundMax fn (xrng.2 - xrng.1) r) ::
          (rsRun fn xrng (1.5 * roundMax fn (xrng.2 - xrng.1) r) rest).1,
        (rsRun fn xrng (1.5 * roundMax fn (xrng.2 - xrng.1) r) rest).2) := by
  simp only [rsRun]
  rw [if_pos h]

/-- C3 witness: the amended escalation behaviour evaluated on a concrete
escalating run. -/
theorem C3_escalation_witness :
    rsRun (fun _ => (2 : ℚ)) (0, 1) 1 (cround :: [cround]) =
      (((1 : ℚ), roundMax (fun _ => (2 : ℚ)) (((0 : ℚ), (1 : ℚ)).2 - ((0 : ℚ), (1 : ℚ)).1) cround) ::
          (rsRun (fun _ => (2 : ℚ)) (0, 1)
              (1.5 * roundMax (fun _ => (2 : ℚ)) (((0 : ℚ), (1 : ℚ)).2 - ((0 : ℚ), (1 : ℚ)).1) cround)
              [cround]).1,
        (rsRun (fun _ => (2 : ℚ)) (0, 1)
            (1.5 * roundMax (fun _ => (2 : ℚ)) (((0 : ℚ), (1 : ℚ)).2 - ((0 : ℚ), (1 : ℚ)).1) cround)
            [cround]).2) :=
  C3_escalation_discards_round (fun _ => (2 : ℚ)) (0, 1) 1 cround [cround]
    (by simp only [roundMax, cround]; norm_num [Finset.sup'_const])

/-- C4: `mass_enclosed` raises `TypeError` for every radius: the statement
`np.multiply(np.power(rt, 2.), np.add(rt, 1.), -2.)` passes the float `-2.`
as the `out` argument of `np.multiply`, which numpy rejects, instead of
raising `(1 + r/a)` to the power `-2`. -/
theorem C4_mass_enclosed_raises (M a r : ℝ) :
    mass_enclosed M a r = Except.error PyExn.typeErrorOutNotArray := rfl

/-- C2: constructing `Hernquist(M, a)` in a freshly imported module fails
with `NameError` for every parameterization: `_init_maxval_list_` evaluates
`pot.my_f_of_vr(vlist, this_r)` on the first grid radius, and the module
defines no global `pot` — the table is not built from the instance's own
target function `self.my_f_of_vr`. -/
theorem C2_init_raises_nameerror (M a : ℝ) :
    hernquist_init M a none = Except.error PyExn.nameErrorPot := by
  have hl : logspace (-6) 4 10000 ≠ [] := by
    have hlen : (logspace (-6) 4 10000).length = 10000 := by
      unfold logspace linspace
      rw [List.length_map, List.length_map, List.length_range]
    intro h
    rw [h] at hlen
    simp at hlen
  have hv : ((logspace (-6) 4 10000).map (potential M a)).map
      (fun p => Real.sqrt (2 * |p|)) ≠ [] := by
    simpa using hl
  unfold hernquist_init init_maxval_list
  rw [buildMaxvalTable_none_err _ _ hl hv]
  rfl

/-- C6: `f_of_E` maps each energy through the clamp that sends exactly the
open interval `(0, 1e-8)` to `-1e-8` before the conversion `q_of_E`, logs
exactly the energies exceeding `1e-2` while still producing a value for
every input (one output per input, no rejection and no exception). -/
theorem C6_f_of_E_clamps_and_logs (M a : ℝ) (E : List ℝ) :
    (f_of_E M a E).vals =
        E.map (fun x =>
          f_of_q M a (q_of_E M a (if 0 < x ∧ x < 1e-8 then (-1e-8 : ℝ) else x))) ∧
      (f_of_E M a E).logs = E.filter (fun x => decide ((1e-2 : ℝ) < x)) ∧
      (f_of_E M a E).vals.length = E.length := by
  refine ⟨?_, rfl, ?_⟩
  · unfold f_of_E clampE
    rw [List.map_map]
    rfl
  · unfold f_of_E
    simp

/-- C7 (counterexample): `f_of_E` does not leave its input array unchanged:
for the array `[5e-9]` (entry in the open interval `(0, 1e-8)`), the
caller's array holds `[-1e-8]` after the call, because the clamp
`E[keys] = -1e-8` mutates the array in place. -/
theorem C7_counterexample : (f_of_E 1 1 [5e-9]).arr ≠ [(5e-9 : ℝ)] := by
  unfold f_of_E clampE
  simp only [List.map]
  rw [if_pos (by norm_num)]
  intro h
  rw [List.cons.injEq] at h
  have := h.1
  norm_num at this

/-- C7 (amended): `f_of_E` leaves the caller's array unchanged exactly when
no entry lies in the open interval `(0, 1e-8)`; entries in that interval are
overwritten with `-1e-8` in place. -/
theorem C7_f_of_E_no_mutation_outside_clamp (M a : ℝ) (E : List ℝ)
    (h : ∀ x ∈ E, ¬(0 < x ∧ x < 1e-8)) : (f_of_E M a E).arr = E := by
  unfold f_of_E
  simp only
  conv_rhs => rw [← List.map_id E]
  refine List.map_congr_left ?_
  intro x hx
  unfold clampE
  rw [if_neg (h x hx)]
  rfl

/-- C7 witness: an array with no entry in `(0, 1e-8)` is unchanged. -/
theorem C7_f_of_E_no_mutation_witness : (f_of_E 1 1 [1, -1]).arr = [1, -1] :=
  C7_f_of_E_no_mutation_outside_clamp 1 1 [1, -1] (by
    intro x hx
    simp only [List.mem_cons, List.mem_singleton] at hx
    rcases hx with h | h | h
    · rw [h]; norm_num
    · rw [h]; norm_num
    · exact absurd h (List.not_mem_nil x))

/-- C8: `E_of_q` and `q_of_E` are mutually inverse on the valid domain:
for `E ≤ 0` and `phi_of_0 < 0`, `E_of_q (q_of_E E) = E` exactly, and for
`q ∈ [0, 1)`, `q_of_E (E_of_q q) = q` exactly (real arithmetic; the claimed
floating-point tolerance is `0`). -/
theorem C8_roundtrip (M a E q : ℝ) (hphi : phi_of_0 M a < 0) (hE : E ≤ 0)
    (hq0 : 0 ≤ q) (hq1 : q < 1) :
    E_of_q M a (q_of_E M a E) = E ∧ q_of_E M a (E_of_q M a q) = q := by
  have hphine : phi_of_0 M a ≠ 0 := ne_of_lt hphi
  constructor
  · unfold E_of_q q_of_E
    rw [Real.sq_sqrt (div_nonneg_of_nonpos hE hphi.le)]
    field_simp
  · unfold E_of_q q_of_E
    rw [mul_div_cancel_left₀ _ hphine]
    exact Real.sqrt_sq hq0

/-- C8 witness: the round trips evaluated at `M = a = 1`, `E = -1`,
`q = 1/2`. -/
theorem C8_roundtrip_witness :
    E_of_q 1 1 (q_of_E 1 1 (-1)) = -1 ∧ q_of_E 1 1 (E_of_q 1 1 (1/2)) = 1/2 :=
  C8_roundtrip 1 1 (-1) (1/2)
    (by unfold phi_of_0; simp only [mul_one, div_one, neg_lt_zero]; exact Gconst_pos)
    (by norm_num) (by norm_num) (by norm_num)

/-- C9: `_sigmasq_` never returns `nan` for `r ≥ 0` (valid model, `M, a > 0`):
for `r/a > 300` it returns the asymptotic `G M / (5 r)` instead of the closed
form, and whenever `r/a < 1e-12` and the un-guarded closed form evaluates to
`nan` (which happens exactly at `r = 0`, where `log(1 + 1/0) = inf` and
`inf * 0 = nan`) it returns `0`. -/
theorem C9_sigmasq_guards (M a r : ℝ) (hM : 0 < M) (ha : 0 < a) (hr : 0 ≤ r) :
    sigmasq M a r ≠ NpVal.nan ∧
      (300 < r / a → sigmasq M a r = NpVal.fin (Gconst * M / 5 / r)) ∧
      (r / a < 1e-12 → isnan (sigmasq_raw M a r) = true →
        sigmasq M a r = NpVal.fin 0) := by
  have hrt : 0 ≤ r / a := div_nonneg hr ha.le
  rcases eq_or_lt_of_le hrt with h0 | hpos
  · -- the radius is exactly zero in units of a
    have hraw : sigmasq_raw M a r = NpVal.nan := by
      simp only [sigmasq_raw, ← h0]
      norm_num [ediv, eadd, elog, emul, esub]
    have hfin : sigmasq M a r = NpVal.fin 0 := by
      simp only [sigmasq, ← h0]
      rw [if_neg (by norm_num : ¬(300 : ℝ) < 0),
        if_pos ⟨by rw [hraw]; rfl, le_refl (0 : ℝ), by norm_num⟩]
    refine ⟨by rw [hfin]; intro h; exact NpVal.noConfusion h, ?_, fun _ _ => hfin⟩
    intro h300
    rw [← h0] at h300
    norm_num at h300
  · -- positive radius: the closed form is finite
    have hne : r / a ≠ 0 := ne_of_gt hpos
    have hlogarg : 0 < 1 + 1 / (r / a) := by positivity
    have hraw : sigmasq_raw M a r ≠ NpVal.nan ∧
        isnan (sigmasq_raw M a r) = false := by
      simp only [sigmasq_raw, ediv]
      rw [if_neg hne]
      simp only [eadd, elog]
      rw [if_pos hlogarg]
      simp only [emul, esub]
      exact ⟨fun h => NpVal.noConfusion h, rfl⟩
    by_cases h3 : 300 < r / a
    · have hfin : sigmasq M a r = NpVal.fin (Gconst * M / 5 / r) := by
        simp only [sigmasq]
        rw [if_pos h3]
      refine ⟨by rw [hfin]; intro h; exact NpVal.noConfusion h, fun _ => hfin,
        fun hsm _ => ?_⟩
      exfalso
      linarith
    · have hfin : sigmasq M a r = sigmasq_raw M a r := by
        simp only [sigmasq]
        rw [if_neg h3, if_neg]
        rintro ⟨hn, -⟩
        rw [hraw.2] at hn
        exact Bool.noConfusion hn
      refine ⟨by rw [hfin]; exact hraw.1,
        fun h300 => absurd h300 h3, fun hsm hn => ?_⟩
      rw [hraw.2] at hn
      exact Bool.noConfusion hn

/-- C9 witness: the guards evaluated at `M = a = 1`, `r = 0` (the `nan`
radius). -/
theorem C9_sigmasq_guards_witness :
    sigmasq 1 1 0 ≠ NpVal.nan ∧
      (300 < (0 : ℝ) / 1 → sigmasq 1 1 0 = NpVal.fin (Gconst * 1 / 5 / 0)) ∧
      ((0 : ℝ) / 1 < 1e-12 → isnan (sigmasq_raw 1 1 0) = true →
        sigmasq 1 1 0 = NpVal.fin 0) :=
  C9_sigmasq_guards 1 1 0 (by norm_num) (by norm_num) (by norm_num)

/-- Helper: a differentiable function vanishing at `0` with derivative
nonnegative on `[0, ∞)` is nonnegative on `[0, ∞)`. -/
theorem nonneg_of_deriv (F Fd : ℝ → ℝ) (hd : ∀ t, HasDerivAt F (Fd t) t)
    (h0 : F 0 = 0) (hge : ∀ t, 0 ≤ t → 0 ≤ Fd t) : ∀ x, 0 ≤ x → 0 ≤ F x := by
  intro x hx
  have hdiff : Differentiable ℝ F := fun t => (hd t).differentiableAt
  have hmono : MonotoneOn F (Set.Ici 0) := by
    apply monotoneOn_of_deriv_nonneg (convex_Ici 0) hdiff.continuous.continuousOn
    · intro t _
      exact (hdiff t).differentiableWithinAt
    · intro t ht
      rw [interior_Ici] at ht
      rw [(hd t).deriv]
      exact hge t (le_of_lt ht)
  have := hmono (Set.left_mem_Ici) (Set.mem_Ici.mpr hx) hx
  rw [h0] at this
  exact this

/-- Taylor bound: `sin x ≤ x` for `x ≥ 0`. -/
theorem sin_ub_1 (x : ℝ) (hx : 0 ≤ x) : Real.sin x ≤ x := by
  have h := nonneg_of_deriv (fun t => t - Real.sin t) (fun t => 1 - Real.cos t)
    (fun t => (hasDerivAt_id t).sub (Real.hasDerivAt_sin t))
    (by simp)
    (fun t _ => by
      show (0 : ℝ) ≤ 1 - Real.cos t
      nlinarith [Real.cos_le_one t])
    x hx
  have h2 : (0 : ℝ) ≤ x - Real.sin x := h
  linarith [h2]

/-- Taylor bound: `1 - x²/2 ≤ cos x` for `x ≥ 0`. -/
theorem cos_lb_2 (x : ℝ) (hx : 0 ≤ x) : 1 - x ^ 2 / 2 ≤ Real.cos x := by
  have h := nonneg_of_deriv (fun t => Real.cos t - (1 - t ^ 2 / 2))
    (fun t => t - Real.sin t)
    (fun t => by
      have h1 := (Real.hasDerivAt_cos t).sub
        (HasDerivAt.const_sub 1 ((hasDerivAt_pow 2 t).div_const 2))
      convert h1 using 1
      push_cast
      ring)
    (by norm_num)
    (fun t ht => by
      show (0 : ℝ) ≤ t - Real.sin t
      linarith [sin_ub_1 t ht])
    x hx
  have h2 : (0 : ℝ) ≤ Real.cos x - (1 - x ^ 2 / 2) := h
  linarith [h2]

/-- Taylor bound: `x - x³/6 ≤ sin x` for `x ≥ 0`. -/
theorem sin_lb_3 (x : ℝ) (hx : 0 ≤ x) : x - x ^ 3 / 6 ≤ Real.sin x := by
  have h := nonneg_of_deriv (fun t => Real.sin t - (t - t ^ 3 / 6))
    (fun t => Real.cos t - (1 - t ^ 2 / 2))
    (fun t => by
      have h1 := (Real.hasDerivAt_sin t).sub
        ((hasDerivAt_id t).sub ((hasDerivAt_pow 3 t).div_const 6))
      convert h1 using 1
      push_cast
      ring)
    (by norm_num)
    (fun t ht => by
      show (0 : ℝ) ≤ Real.cos t - (1 - t ^ 2 / 2)
      linarith [cos_lb_2 t ht])
    x hx
  have h2 : (0 : ℝ) ≤ Real.sin x - (x - x ^ 3 / 6) := h
  linarith [h2]

/-- Taylor bound: `cos x ≤ 1 - x²/2 + x⁴/24` for `x ≥ 0`. -/
theorem cos_ub_4 (x : ℝ) (hx : 0 ≤ x) :
    Real.cos x ≤ 1 - x ^ 2 / 2 + x ^ 4 / 24 := by
  have h := nonneg_of_deriv (fun t => 1 - t ^ 2 / 2 + t ^ 4 / 24 - Real.cos t)
    (fun t => Real.sin t - (t - t ^ 3 / 6))
    (fun t => by
      have h1 := (((HasDerivAt.const_sub 1 ((hasDerivAt_pow 2 t).div_const 2)).add
        ((hasDerivAt_pow 4 t).div_const 24)).sub (Real.hasDerivAt_cos t))
      convert h1 using 1
      push_cast
      ring)
    (by norm_num)
    (fun t ht => by
      show (0 : ℝ) ≤ Real.sin t - (t - t ^ 3 / 6)
      linarith [sin_lb_3 t ht])
    x hx
  have h2 : (0 : ℝ) ≤ 1 - x ^ 2 / 2 + x ^ 4 / 24 - Real.cos x := h
  linarith [h2]

/-- Taylor bound: `sin x ≤ x - x³/6 + x⁵/120` for `x ≥ 0`. -/
theorem sin_ub_5 (x : ℝ) (hx : 0 ≤ x) :
    Real.sin x ≤ x - x ^ 3 / 6 + x ^ 5 / 120 := by
  have h := nonneg_of_deriv
    (fun t => t - t ^ 3 / 6 + t ^ 5 / 120 - Real.sin t)
    (fun t => 1 - t ^ 2 / 2 + t ^ 4 / 24 - Real.cos t)
    (fun t => by
      have h1 := ((((hasDerivAt_id t).sub ((hasDerivAt_pow 3 t).div_const 6)).add
        ((hasDerivAt_pow 5 t).div_const 120)).sub (Real.hasDerivAt_sin t))
      convert h1 using 1
      push_cast
      ring)
    (by norm_num)
    (fun t ht => by
      show (0 : ℝ) ≤ 1 - t ^ 2 / 2 + t ^ 4 / 24 - Real.cos t
      linarith [cos_ub_4 t ht])
    x hx
  have h2 : (0 : ℝ) ≤ x - x ^ 3 / 6 + x ^ 5 / 120 - Real.sin x := h
  linarith [h2]

/-- Taylor bound: `1 - x²/2 + x⁴/24 - x⁶/720 ≤ cos x` for `x ≥ 0`. -/
theorem cos_lb_6 (x : ℝ) (hx : 0 ≤ x) :
    1 - x ^ 2 / 2 + x ^ 4 / 24 - x ^ 6 / 720 ≤ Real.cos x := by
  have h := nonneg_of_deriv
    (fun t => Real.cos t - (1 - t ^ 2 / 2 + t ^ 4 / 24 - t ^ 6 / 720))
    (fun t => t - t ^ 3 / 6 + t ^ 5 / 120 - Real.sin t)
    (fun t => by
      have h1 := (Real.hasDerivAt_cos t).sub
        (((HasDerivAt.const_sub 1 ((hasDerivAt_pow 2 t).div_const 2)).add
          ((hasDerivAt_pow 4 t).div_const 24)).sub ((hasDerivAt_pow 6 t).div_const 720))
      convert h1 using 1
      push_cast
      ring)
    (by norm_num)
    (fun t ht => by
      show (0 : ℝ) ≤ t - t ^ 3 / 6 + t ^ 5 / 120 - Real.sin t
      linarith [sin_ub_5 t ht])
    x hx
  have h2 : (0 : ℝ) ≤ Real.cos x - (1 - x ^ 2 / 2 + x ^ 4 / 24 - x ^ 6 / 720) := h
  linarith [h2]

/-- Taylor bound: `x - x³/6 + x⁵/120 - x⁷/5040 ≤ sin x` for `x ≥ 0`. -/
theorem sin_lb_7 (x : ℝ) (hx : 0 ≤ x) :
    x - x ^ 3 / 6 + x ^ 5 / 120 - x ^ 7 / 5040 ≤ Real.sin x := by
  have h := nonneg_of_deriv
    (fun t => Real.sin t - (t - t ^ 3 / 6 + t ^ 5 / 120 - t ^ 7 / 5040))
    (fun t => Real.cos t - (1 - t ^ 2 / 2 + t ^ 4 / 24 - t ^ 6 / 720))
    (fun t => by
      have h1 := (Real.hasDerivAt_sin t).sub
        ((((hasDerivAt_id t).sub ((hasDerivAt_pow 3 t).div_const 6)).add
          ((hasDerivAt_pow 5 t).div_const 120)).sub ((hasDerivAt_pow 7 t).div_const 5040))
      convert h1 using 1
      push_cast
      ring)
    (by norm_num)
    (fun t ht => by
      show (0 : ℝ) ≤ Real.cos t - (1 - t ^ 2 / 2 + t ^ 4 / 24 - t ^ 6 / 720)
      linarith [cos_lb_6 t ht])
    x hx
  have h2 : (0 : ℝ) ≤ Real.sin x - (x - x ^ 3 / 6 + x ^ 5 / 120 - x ^ 7 / 5040) := h
  linarith [h2]

/-- Taylor bound: `cos x ≤ 1 - x²/2 + x⁴/24 - x⁶/720 + x⁸/40320` for
`x ≥ 0`. -/
theorem cos_ub_8 (x : ℝ) (hx : 0 ≤ x) :
    Real.cos x ≤ 1 - x ^ 2 / 2 + x ^ 4 / 24 - x ^ 6 / 720 + x ^ 8 / 40320 := by
  have h := nonneg_of_deriv
    (fun t => 1 - t ^ 2 / 2 + t ^ 4 / 24 - t ^ 6 / 720 + t ^ 8 / 40320 - Real.cos t)
    (fun t => Real.sin t - (t - t ^ 3 / 6 + t ^ 5 / 120 - t ^ 7 / 5040))
    (fun t => by
      have h1 := ((((HasDerivAt.const_sub 1 ((hasDerivAt_pow 2 t).div_const 2)).add
        ((hasDerivAt_pow 4 t).div_const 24)).sub
          ((hasDerivAt_pow 6 t).div_const 720)).add
            ((hasDerivAt_pow 8 t).div_const 40320)).sub (Real.hasDerivAt_cos t)
      convert h1 using 1
      push_cast
      ring)
    (by norm_num)
    (fun t ht => by
      show (0 : ℝ) ≤ Real.sin t - (t - t ^ 3 / 6 + t ^ 5 / 120 - t ^ 7 / 5040)
      linarith [sin_lb_7 t ht])
    x hx
  have h2 : (0 : ℝ) ≤ 1 - x ^ 2 / 2 + x ^ 4 / 24 - x ^ 6 / 720 + x ^ 8 / 40320 - Real.cos x := h
  linarith [h2]

/-- Helper: `t - sin t` is monotone on the whole line. -/
theorem monotone_id_sub_sin : Monotone (fun t : ℝ => t - Real.sin t) := by
  have hd : ∀ t : ℝ, HasDerivAt (fun t : ℝ => t - Real.sin t) (1 - Real.cos t) t :=
    fun t => (hasDerivAt_id t).sub (Real.hasDerivAt_sin t)
  apply monotone_of_deriv_nonneg
  · exact fun t => (hd t).differentiableAt
  · intro t
    rw [(hd t).deriv]
    nlinarith [Real.cos_le_one t]

/-- Helper: a lower bound on `arccos` from an upper bound on `cos`. -/
theorem arccos_ge_of_cos_ge {c t : ℝ} (ht0 : 0 ≤ t) (htpi : t ≤ Real.pi)
    (h : c ≤ Real.cos t) : t ≤ Real.arccos c := by
  have h1 : Real.arcsin c ≤ Real.arcsin (Real.cos t) := Real.monotone_arcsin h
  have h2 := Real.arccos_cos ht0 htpi
  rw [Real.arccos_eq_pi_div_two_sub_arcsin] at h2 ⊢
  linarith

/-- Helper: an upper bound on `arccos` from a lower bound on `cos`. -/
theorem arccos_le_of_cos_le {c t : ℝ} (ht0 : 0 ≤ t) (htpi : t ≤ Real.pi)
    (h : Real.cos t ≤ c) : Real.arccos c ≤ t := by
  have h1 : Real.arcsin (Real.cos t) ≤ Real.arcsin c := Real.monotone_arcsin h
  have h2 := Real.arccos_cos ht0 htpi
  rw [Real.arccos_eq_pi_div_two_sub_arcsin] at h2 ⊢
  linarith

/-- Helper: a lower bound on `arcsin` from a bound on `sin`. -/
theorem arcsin_ge_of_sin_le {c t : ℝ} (ht1 : -(Real.pi / 2) ≤ t)
    (ht2 : t ≤ Real.pi / 2) (h : Real.sin t ≤ c) : t ≤ Real.arcsin c := by
  have h1 := Real.monotone_arcsin h
  rwa [Real.arcsin_sin ht1 ht2] at h1

/-- Helper: an upper bound on `arcsin` from a bound on `sin`. -/
theorem arcsin_le_of_le_sin {c t : ℝ} (ht1 : -(Real.pi / 2) ≤ t)
    (ht2 : t ≤ Real.pi / 2) (h : c ≤ Real.sin t) : Real.arcsin c ≤ t := by
  have h1 := Real.monotone_arcsin h
  rwa [Real.arcsin_sin ht1 ht2] at h1

/-- Helper: a rational lower bound for a square root. -/
theorem sqrt_ge_of_sq_le {v lo : ℝ} (hlo : 0 ≤ lo) (h : lo ^ 2 ≤ v) :
    lo ≤ Real.sqrt v :=
  (Real.le_sqrt hlo (le_trans (sq_nonneg lo) h)).mpr h

/-- Helper: a rational upper bound for a square root. -/
theorem sqrt_le_of_le_sq {v hi : ℝ} (hhi : 0 ≤ hi) (h : v ≤ hi ^ 2) :
    Real.sqrt v ≤ hi := by
  calc Real.sqrt v ≤ Real.sqrt (hi ^ 2) := Real.sqrt_le_sqrt h
    _ = hi := Real.sqrt_sq hhi

/-- Numeric bracket: lower bound for `arccos 0.9999`. -/
theorem theta1_lb : (0.01414225347751277 : ℝ) ≤ Real.arccos 0.9999 := by
  refine arccos_ge_of_cos_ge (by norm_num) (by linarith [Real.pi_gt_d6]) ?_
  have h := cos_lb_6 0.01414225347751277 (by norm_num)
  have hp : (0.9999 : ℝ) ≤ 1 - (0.01414225347751277 : ℝ) ^ 2 / 2 +
      (0.01414225347751277 : ℝ) ^ 4 / 24 - (0.01414225347751277 : ℝ) ^ 6 / 720 := by
    norm_num
  linarith

/-- Numeric bracket: upper bound for `arccos 0.9999`. -/
theorem theta1_ub : Real.arccos 0.9999 ≤ 0.01414225347751298 := by
  refine arccos_le_of_cos_le (by norm_num) (by linarith [Real.pi_gt_d6]) ?_
  have h := cos_ub_8 0.01414225347751298 (by norm_num)
  have hp : (1 : ℝ) - (0.01414225347751298 : ℝ) ^ 2 / 2 +
      (0.01414225347751298 : ℝ) ^ 4 / 24 - (0.01414225347751298 : ℝ) ^ 6 / 720 +
      (0.01414225347751298 : ℝ) ^ 8 / 40320 ≤ 0.9999 := by
    norm_num
  linarith

/-- Numeric bracket: lower bound for `arcsin 1e-3`. -/
theorem u0_lb : (0.001000000166666741666696 : ℝ) ≤ Real.arcsin 1e-3 := by
  refine arcsin_ge_of_sin_le (by nlinarith [Real.pi_gt_d6]) (by nlinarith [Real.pi_gt_d6]) ?_
  have h := sin_ub_5 0.001000000166666741666696 (by norm_num)
  have hp : (0.001000000166666741666696 : ℝ) -
      (0.001000000166666741666696 : ℝ) ^ 3 / 6 +
      (0.001000000166666741666696 : ℝ) ^ 5 / 120 ≤ 1e-3 := by
    norm_num
  linarith

/-- Numeric bracket: upper bound for `arcsin 1e-3`. -/
theorem u0_ub : Real.arcsin 1e-3 ≤ 0.001000000166666741666726 := by
  refine arcsin_le_of_le_sin (by nlinarith [Real.pi_gt_d6]) (by nlinarith [Real.pi_gt_d6]) ?_
  have h := sin_lb_7 0.001000000166666741666726 (by norm_num)
  have hp : (1e-3 : ℝ) ≤ (0.001000000166666741666726 : ℝ) -
      (0.001000000166666741666726 : ℝ) ^ 3 / 6 +
      (0.001000000166666741666726 : ℝ) ^ 5 / 120 -
      (0.001000000166666741666726 : ℝ) ^ 7 / 5040 := by
    norm_num
  linarith

/-- Rewrite `x ** (-5/2)` (numpy float power, positive base) as an inverse. -/
theorem rpow_neg_five_halves (x : ℝ) (hx : 0 < x) :
    x ^ ((-5 : ℝ) / 2) = (x ^ 2 * Real.sqrt x)⁻¹ := by
  have h1 : ((-5 : ℝ) / 2) = -(2 + 1 / 2) := by norm_num
  rw [h1, Real.rpow_neg hx.le, Real.rpow_add hx, Real.rpow_two, ← Real.sqrt_eq_rpow]

/-- Rewrite `x ** (-5.)` (numpy float power) as an inverse. -/
theorem rpow_neg_five (x : ℝ) : x ^ (-5 : ℝ) = (x ^ 5)⁻¹ := by
  have h : (-5 : ℝ) = ((-5 : ℤ) : ℝ) := by norm_num
  rw [h, Real.rpow_intCast, zpow_neg]
  norm_num [zpow_ofNat]

/-- Helper: `vg` is positive for a valid model. -/
theorem vg_pos (M a : ℝ) (hM : 0 < M) (ha : 0 < a) : 0 < vg M a := by
  unfold vg
  apply Real.sqrt_pos.mpr
  have h := Gconst_pos
  positivity

/-- Helper: the product of the two distribution prefactors collapses to
`M / (12 π vg²)`. -/
theorem pref_mul (M a : ℝ) (ha : a ≠ 0) (hv : vg M a ≠ 0) :
    f_prefactor M a * g_prefactor M a = M / (12 * Real.pi * vg M a ^ 2) := by
  unfold f_prefactor g_prefactor
  have hpi : Real.pi ≠ 0 := Real.pi_ne_zero
  have hs2 : Real.sqrt 2 ≠ 0 := ne_of_gt (Real.sqrt_pos.mpr (by norm_num))
  field_simp
  ring

set_option maxHeartbeats 2000000 in
/-- Boundary agreement at `q = 0.9999 = 1 - 1e-4`: the direct product
`f_of_q * g_of_q` and the `_dMdE_close_to_1_` series agree to within one
percent relative tolerance. -/
theorem key_boundary_1 (M a : ℝ) (hM : 0 < M) (ha : 0 < a) :
    |f_of_q M a 0.9999 * g_of_q M a 0.9999 - dMdE_close_to_1 M a 0.9999| ≤
      1 / 100 * dMdE_close_to_1 M a 0.9999 := by
  have hvg := vg_pos M a hM ha
  have hMvg : 0 < M / vg M a ^ 2 := by positivity
  have hpref := pref_mul M a (ne_of_gt ha) (ne_of_gt hvg)
  have hv1 : (0 : ℝ) < 1 - (0.9999 : ℝ) ^ 2 := by norm_num
  have hshape : f_of_q M a 0.9999 * g_of_q M a 0.9999 =
      M / vg M a ^ 2 *
        ((3 * Real.arcsin 0.9999 +
            ((1 - (0.9999 : ℝ) ^ 2) - (0.9999 : ℝ) ^ 2) *
              (0.9999 * (Real.sqrt (1 - (0.9999 : ℝ) ^ 2) *
                (8 * (((0.9999 : ℝ) ^ 2) ^ 2 - (0.9999 : ℝ) ^ 2) - 3)))) *
          ((8 * ((0.9999 : ℝ) ^ 2) ^ 2 - 4 * (0.9999 : ℝ) ^ 2 + 1) *
              Real.arccos 0.9999 * 3 -
            Real.sqrt (1 - (0.9999 : ℝ) ^ 2) * (4 * (0.9999 : ℝ) ^ 2 - 1) *
              (2 * (0.9999 : ℝ) ^ 2 + 3) * 0.9999) *
          (((1 - (0.9999 : ℝ) ^ 2) ^ 2 * Real.sqrt (1 - (0.9999 : ℝ) ^ 2))⁻¹ *
            ((0.9999 : ℝ) ^ 5)⁻¹) / (12 * Real.pi)) := by
    have h1 : f_of_q M a 0.9999 * g_of_q M a 0.9999 =
        f_prefactor M a * g_prefactor M a *
          ((3 * Real.arcsin 0.9999 +
              ((1 - (0.9999 : ℝ) ^ 2) - (0.9999 : ℝ) ^ 2) *
                (0.9999 * (Real.sqrt (1 - (0.9999 : ℝ) ^ 2) *
                  (8 * (((0.9999 : ℝ) ^ 2) ^ 2 - (0.9999 : ℝ) ^ 2) - 3)))) *
            ((8 * ((0.9999 : ℝ) ^ 2) ^ 2 - 4 * (0.9999 : ℝ) ^ 2 + 1) *
                Real.arccos 0.9999 * 3 -
              Real.sqrt (1 - (0.9999 : ℝ) ^ 2) * (4 * (0.9999 : ℝ) ^ 2 - 1) *
                (2 * (0.9999 : ℝ) ^ 2 + 3) * 0.9999) *
            (((1 - (0.9999 : ℝ) ^ 2) ^ 2 * Real.sqrt (1 - (0.9999 : ℝ) ^ 2))⁻¹ *
              ((0.9999 : ℝ) ^ 5)⁻¹)) := by
      unfold f_of_q g_of_q
      rw [rpow_neg_five_halves _ hv1, rpow_neg_five]
      ring
    rw [h1, hpref]
    ring
  have hclose : dMdE_close_to_1 M a 0.9999 =
      M / vg M a ^ 2 * (0.5 * (32 / 35) * (1 - (0.9999 : ℝ) ^ 2)) := by
    unfold dMdE_close_to_1
    ring
  rw [hshape, hclose, ← mul_sub, abs_mul, abs_of_pos hMvg,
    show (1 : ℝ) / 100 * (M / vg M a ^ 2 * (0.5 * (32 / 35) * (1 - (0.9999 : ℝ) ^ 2))) =
      M / vg M a ^ 2 * (1 / 100 * (0.5 * (32 / 35) * (1 - (0.9999 : ℝ) ^ 2))) from by ring]
  refine mul_le_mul_of_nonneg_left ?_ hMvg.le
  rw [Real.arcsin_eq_pi_div_two_sub_arccos]
  have hsq : Real.sqrt (1 - (0.9999 : ℝ) ^ 2) = Real.sin (Real.arccos 0.9999) :=
    (Real.sin_arccos 0.9999).symm
  rw [hsq]
  set th := Real.arccos (0.9999 : ℝ) with hth
  have hpi1 : (3.141592 : ℝ) < Real.pi := Real.pi_gt_d6
  have hpi2 : Real.pi < 3.141593 := Real.pi_lt_d6
  have hth1 : (0.01414225347751277 : ℝ) ≤ th := by rw [hth]; exact theta1_lb
  have hth2 : th ≤ 0.01414225347751298 := by rw [hth]; exact theta1_ub
  have hs1 : (0.0141417820659200 : ℝ) ≤ Real.sin th := by
    rw [hth, Real.sin_arccos]
    exact sqrt_ge_of_sq_le (by norm_num) (by norm_num)
  have hs2 : Real.sin th ≤ 0.0141417820659220 := by
    rw [hth, Real.sin_arccos]
    exact sqrt_le_of_le_sq (by norm_num) (by norm_num)
  have hsinpos : (0 : ℝ) < Real.sin th := lt_of_lt_of_le (by norm_num) hs1
  have hts1 : (0.01414225347751277 : ℝ) ^ 3 / 6 - (0.01414225347751277 : ℝ) ^ 5 / 120 ≤
      th - Real.sin th := by
    have hm : (0.01414225347751277 : ℝ) - Real.sin 0.01414225347751277 ≤
        th - Real.sin th := monotone_id_sub_sin hth1
    have h5 := sin_ub_5 0.01414225347751277 (by norm_num)
    linarith
  have hts2 : th - Real.sin th ≤ (0.01414225347751298 : ℝ) ^ 3 / 6 -
      (0.01414225347751298 : ℝ) ^ 5 / 120 + (0.01414225347751298 : ℝ) ^ 7 / 5040 := by
    have hm : th - Real.sin th ≤
        (0.01414225347751298 : ℝ) - Real.sin 0.01414225347751298 :=
      monotone_id_sub_sin hth2
    have h7 := sin_lb_7 0.01414225347751298 (by norm_num)
    linarith
  have hFBlo : (4.712387 : ℝ) ≤ 3 * (Real.pi / 2 - th) +
      ((1 - (0.9999 : ℝ) ^ 2) - (0.9999 : ℝ) ^ 2) *
        (0.9999 * (Real.sin th * (8 * (((0.9999 : ℝ) ^ 2) ^ 2 - (0.9999 : ℝ) ^ 2) - 3))) := by
    linarith [hpi1, hth2, hs1]
  have hFBhi : 3 * (Real.pi / 2 - th) +
      ((1 - (0.9999 : ℝ) ^ 2) - (0.9999 : ℝ) ^ 2) *
        (0.9999 * (Real.sin th * (8 * (((0.9999 : ℝ) ^ 2) ^ 2 - (0.9999 : ℝ) ^ 2) - 3))) ≤
      4.71239 := by
    linarith [hpi2, hth1, hs2]
  have hGBlo : (4.1336e-13 : ℝ) ≤
      (8 * ((0.9999 : ℝ) ^ 2) ^ 2 - 4 * (0.9999 : ℝ) ^ 2 + 1) * th * 3 -
        Real.sin th * (4 * (0.9999 : ℝ) ^ 2 - 1) * (2 * (0.9999 : ℝ) ^ 2 + 3) * 0.9999 := by
    linarith [hts1, hs2]
  have hGBhi : (8 * ((0.9999 : ℝ) ^ 2) ^ 2 - 4 * (0.9999 : ℝ) ^ 2 + 1) * th * 3 -
        Real.sin th * (4 * (0.9999 : ℝ) ^ 2 - 1) * (2 * (0.9999 : ℝ) ^ 2 + 3) * 0.9999 ≤
      4.1371e-13 := by
    linarith [hts2, hs1]
  have hbXlo : (0 : ℝ) < (1 - (0.9999 : ℝ) ^ 2) ^ 2 * Real.sin th :=
    mul_pos (by norm_num) hsinpos
  have hXQlo : (1768872202 : ℝ) ≤
      ((1 - (0.9999 : ℝ) ^ 2) ^ 2 * Real.sin th)⁻¹ * ((0.9999 : ℝ) ^ 5)⁻¹ := by
    have hb : (1 - (0.9999 : ℝ) ^ 2) ^ 2 * Real.sin th ≤
        (1 - (0.9999 : ℝ) ^ 2) ^ 2 * 0.0141417820659220 := by linarith [hs2]
    have hinv : ((1 - (0.9999 : ℝ) ^ 2) ^ 2 * 0.0141417820659220)⁻¹ ≤
        ((1 - (0.9999 : ℝ) ^ 2) ^ 2 * Real.sin th)⁻¹ := inv_le_inv_of_le hbXlo hb
    have hlit : (1768872202 : ℝ) ≤
        ((1 - (0.9999 : ℝ) ^ 2) ^ 2 * 0.0141417820659220)⁻¹ * ((0.9999 : ℝ) ^ 5)⁻¹ := by
      norm_num
    calc (1768872202 : ℝ) ≤
        ((1 - (0.9999 : ℝ) ^ 2) ^ 2 * 0.0141417820659220)⁻¹ * ((0.9999 : ℝ) ^ 5)⁻¹ := hlit
      _ ≤ ((1 - (0.9999 : ℝ) ^ 2) ^ 2 * Real.sin th)⁻¹ * ((0.9999 : ℝ) ^ 5)⁻¹ :=
        mul_le_mul_of_nonneg_right hinv (by norm_num)
  have hXQhi : ((1 - (0.9999 : ℝ) ^ 2) ^ 2 * Real.sin th)⁻¹ * ((0.9999 : ℝ) ^ 5)⁻¹ ≤
      1768872203 := by
    have hb : (1 - (0.9999 : ℝ) ^ 2) ^ 2 * 0.0141417820659200 ≤
        (1 - (0.9999 : ℝ) ^ 2) ^ 2 * Real.sin th := by linarith [hs1]
    have hinv : ((1 - (0.9999 : ℝ) ^ 2) ^ 2 * Real.sin th)⁻¹ ≤
        ((1 - (0.9999 : ℝ) ^ 2) ^ 2 * 0.0141417820659200)⁻¹ :=
      inv_le_inv_of_le (by norm_num) hb
    have hlit : ((1 - (0.9999 : ℝ) ^ 2) ^ 2 * 0.0141417820659200)⁻¹ *
        ((0.9999 : ℝ) ^ 5)⁻¹ ≤ 1768872203 := by
      norm_num
    calc ((1 - (0.9999 : ℝ) ^ 2) ^ 2 * Real.sin th)⁻¹ * ((0.9999 : ℝ) ^ 5)⁻¹ ≤
        ((1 - (0.9999 : ℝ) ^ 2) ^ 2 * 0.0141417820659200)⁻¹ * ((0.9999 : ℝ) ^ 5)⁻¹ :=
        mul_le_mul_of_nonneg_right hinv (by norm_num)
      _ ≤ 1768872203 := hlit
  have hFBpos : (0 : ℝ) ≤ 3 * (Real.pi / 2 - th) +
      ((1 - (0.9999 : ℝ) ^ 2) - (0.9999 : ℝ) ^ 2) *
        (0.9999 * (Real.sin th * (8 * (((0.9999 : ℝ) ^ 2) ^ 2 - (0.9999 : ℝ) ^ 2) - 3))) := by
    linarith [hFBlo]
  have hGBpos : (0 : ℝ) ≤
      (8 * ((0.9999 : ℝ) ^ 2) ^ 2 - 4 * (0.9999 : ℝ) ^ 2 + 1) * th * 3 -
        Real.sin th * (4 * (0.9999 : ℝ) ^ 2 - 1) * (2 * (0.9999 : ℝ) ^ 2 + 3) * 0.9999 := by
    linarith [hGBlo]
  have hXQpos : (0 : ℝ) ≤
      ((1 - (0.9999 : ℝ) ^ 2) ^ 2 * Real.sin th)⁻¹ * ((0.9999 : ℝ) ^ 5)⁻¹ := by
    linarith [hXQlo]
  have hNhi : (3 * (Real.pi / 2 - th) +
        ((1 - (0.9999 : ℝ) ^ 2) - (0.9999 : ℝ) ^ 2) *
          (0.9999 * (Real.sin th * (8 * (((0.9999 : ℝ) ^ 2) ^ 2 - (0.9999 : ℝ) ^ 2) - 3)))) *
      ((8 * ((0.9999 : ℝ) ^ 2) ^ 2 - 4 * (0.9999 : ℝ) ^ 2 + 1) * th * 3 -
        Real.sin th * (4 * (0.9999 : ℝ) ^ 2 - 1) * (2 * (0.9999 : ℝ) ^ 2 + 3) * 0.9999) *
      (((1 - (0.9999 : ℝ) ^ 2) ^ 2 * Real.sin th)⁻¹ * ((0.9999 : ℝ) ^ 5)⁻¹) ≤
      4.71239 * (4.1371e-13) * 1768872203 :=
    mul_le_mul (mul_le_mul hFBhi hGBhi hGBpos (by norm_num)) hXQhi hXQpos (by norm_num)
  have hNlo : (4.712387 : ℝ) * (4.1336e-13) * 1768872202 ≤
      (3 * (Real.pi / 2 - th) +
        ((1 - (0.9999 : ℝ) ^ 2) - (0.9999 : ℝ) ^ 2) *
          (0.9999 * (Real.sin th * (8 * (((0.9999 : ℝ) ^ 2) ^ 2 - (0.9999 : ℝ) ^ 2) - 3)))) *
      ((8 * ((0.9999 : ℝ) ^ 2) ^ 2 - 4 * (0.9999 : ℝ) ^ 2 + 1) * th * 3 -
        Real.sin th * (4 * (0.9999 : ℝ) ^ 2 - 1) * (2 * (0.9999 : ℝ) ^ 2 + 3) * 0.9999) *
      (((1 - (0.9999 : ℝ) ^ 2) ^ 2 * Real.sin th)⁻¹ * ((0.9999 : ℝ) ^ 5)⁻¹) :=
    mul_le_mul (mul_le_mul hFBlo hGBlo (by norm_num) hFBpos) hXQlo (by norm_num)
      (mul_nonneg hFBpos hGBpos)
  have h12pos : (0 : ℝ) < 12 * Real.pi := by linarith
  rw [abs_sub_le_iff]
  constructor
  · have hR2 : (3 * (Real.pi / 2 - th) +
          ((1 - (0.9999 : ℝ) ^ 2) - (0.9999 : ℝ) ^ 2) *
            (0.9999 * (Real.sin th * (8 * (((0.9999 : ℝ) ^ 2) ^ 2 - (0.9999 : ℝ) ^ 2) - 3)))) *
        ((8 * ((0.9999 : ℝ) ^ 2) ^ 2 - 4 * (0.9999 : ℝ) ^ 2 + 1) * th * 3 -
          Real.sin th * (4 * (0.9999 : ℝ) ^ 2 - 1) * (2 * (0.9999 : ℝ) ^ 2 + 3) * 0.9999) *
        (((1 - (0.9999 : ℝ) ^ 2) ^ 2 * Real.sin th)⁻¹ * ((0.9999 : ℝ) ^ 5)⁻¹) /
        (12 * Real.pi) ≤
        101 / 100 * (0.5 * (32 / 35) * (1 - (0.9999 : ℝ) ^ 2)) := by
      rw [div_le_iff h12pos]
      linarith [hNhi, hpi1]
    linarith [hR2]
  · have hR3 : 99 / 100 * (0.5 * (32 / 35) * (1 - (0.9999 : ℝ) ^ 2)) ≤
        (3 * (Real.pi / 2 - th) +
          ((1 - (0.9999 : ℝ) ^ 2) - (0.9999 : ℝ) ^ 2) *
            (0.9999 * (Real.sin th * (8 * (((0.9999 : ℝ) ^ 2) ^ 2 - (0.9999 : ℝ) ^ 2) - 3)))) *
        ((8 * ((0.9999 : ℝ) ^ 2) ^ 2 - 4 * (0.9999 : ℝ) ^ 2 + 1) * th * 3 -
          Real.sin th * (4 * (0.9999 : ℝ) ^ 2 - 1) * (2 * (0.9999 : ℝ) ^ 2 + 3) * 0.9999) *
        (((1 - (0.9999 : ℝ) ^ 2) ^ 2 * Real.sin th)⁻¹ * ((0.9999 : ℝ) ^ 5)⁻¹) /
        (12 * Real.pi) := by
      rw [le_div_iff h12pos]
      linarith [hNlo, hpi2]
    linarith [hR3]

set_option maxHeartbeats 2000000 in
/-- Boundary agreement at `q = 1e-3`: the direct product `f_of_q * g_of_q`
and the `_dMdE_close_to_0_` series agree to within one percent relative
tolerance. -/
theorem key_boundary_0 (M a : ℝ) (hM : 0 < M) (ha : 0 < a) :
    |f_of_q M a 1e-3 * g_of_q M a 1e-3 - dMdE_close_to_0 M a 1e-3| ≤
      1 / 100 * dMdE_close_to_0 M a 1e-3 := by
  have hvg := vg_pos M a hM ha
  have hMvg : 0 < M / vg M a ^ 2 := by positivity
  have hpref := pref_mul M a (ne_of_gt ha) (ne_of_gt hvg)
  have hv1 : (0 : ℝ) < 1 - (1e-3 : ℝ) ^ 2 := by norm_num
  have hshape : f_of_q M a 1e-3 * g_of_q M a 1e-3 =
      M / vg M a ^ 2 *
        ((3 * Real.arcsin 1e-3 +
            ((1 - (1e-3 : ℝ) ^ 2) - (1e-3 : ℝ) ^ 2) *
              (1e-3 * (Real.sqrt (1 - (1e-3 : ℝ) ^ 2) *
                (8 * (((1e-3 : ℝ) ^ 2) ^ 2 - (1e-3 : ℝ) ^ 2) - 3)))) *
          ((8 * ((1e-3 : ℝ) ^ 2) ^ 2 - 4 * (1e-3 : ℝ) ^ 2 + 1) *
              Real.arccos 1e-3 * 3 -
            Real.sqrt (1 - (1e-3 : ℝ) ^ 2) * (4 * (1e-3 : ℝ) ^ 2 - 1) *
              (2 * (1e-3 : ℝ) ^ 2 + 3) * 1e-3) *
          (((1 - (1e-3 : ℝ) ^ 2) ^ 2 * Real.sqrt (1 - (1e-3 : ℝ) ^ 2))⁻¹ *
            ((1e-3 : ℝ) ^ 5)⁻¹) / (12 * Real.pi)) := by
    have h1 : f_of_q M a 1e-3 * g_of_q M a 1e-3 =
        f_prefactor M a * g_prefactor M a *
          ((3 * Real.arcsin 1e-3 +
              ((1 - (1e-3 : ℝ) ^ 2) - (1e-3 : ℝ) ^ 2) *
                (1e-3 * (Real.sqrt (1 - (1e-3 : ℝ) ^ 2) *
                  (8 * (((1e-3 : ℝ) ^ 2) ^ 2 - (1e-3 : ℝ) ^ 2) - 3)))) *
            ((8 * ((1e-3 : ℝ) ^ 2) ^ 2 - 4 * (1e-3 : ℝ) ^ 2 + 1) *
                Real.arccos 1e-3 * 3 -
              Real.sqrt (1 - (1e-3 : ℝ) ^ 2) * (4 * (1e-3 : ℝ) ^ 2 - 1) *
                (2 * (1e-3 : ℝ) ^ 2 + 3) * 1e-3) *
            (((1 - (1e-3 : ℝ) ^ 2) ^ 2 * Real.sqrt (1 - (1e-3 : ℝ) ^ 2))⁻¹ *
              ((1e-3 : ℝ) ^ 5)⁻¹)) := by
      unfold f_of_q g_of_q
      rw [rpow_neg_five_halves _ hv1, rpow_neg_five]
      ring
    rw [h1, hpref]
    ring
  have hclose : dMdE_close_to_0 M a 1e-3 =
      M / vg M a ^ 2 * (16 / 5 * (1 - 18 / 7 * (1e-3 : ℝ) ^ 2)) := by
    unfold dMdE_close_to_0
    ring
  rw [hshape, hclose, ← mul_sub, abs_mul, abs_of_pos hMvg,
    show (1 : ℝ) / 100 * (M / vg M a ^ 2 * (16 / 5 * (1 - 18 / 7 * (1e-3 : ℝ) ^ 2))) =
      M / vg M a ^ 2 * (1 / 100 * (16 / 5 * (1 - 18 / 7 * (1e-3 : ℝ) ^ 2))) from by ring]
  refine mul_le_mul_of_nonneg_left ?_ hMvg.le
  rw [Real.arccos_eq_pi_div_two_sub_arcsin]
  have hpi1 : (3.141592 : ℝ) < Real.pi := Real.pi_gt_d6
  have hpi2 : Real.pi < 3.141593 := Real.pi_lt_d6
  have hu1 : (0.001000000166666741666696 : ℝ) ≤ Real.arcsin 1e-3 := u0_lb
  have hu2 : Real.arcsin 1e-3 ≤ 0.001000000166666741666726 := u0_ub
  have hw1 : (0.9999994999998749 : ℝ) ≤ Real.sqrt (1 - (1e-3 : ℝ) ^ 2) :=
    sqrt_ge_of_sq_le (by norm_num) (by norm_num)
  have hw2 : Real.sqrt (1 - (1e-3 : ℝ) ^ 2) ≤ 0.9999994999998751 :=
    sqrt_le_of_le_sq (by norm_num) (by norm_num)
  have hwpos : (0 : ℝ) < Real.sqrt (1 - (1e-3 : ℝ) ^ 2) :=
    lt_of_lt_of_le (by norm_num) hw1
  have hFBlo : (2.55996e-14 : ℝ) ≤ 3 * Real.arcsin 1e-3 +
      ((1 - (1e-3 : ℝ) ^ 2) - (1e-3 : ℝ) ^ 2) *
        (1e-3 * (Real.sqrt (1 - (1e-3 : ℝ) ^ 2) *
          (8 * (((1e-3 : ℝ) ^ 2) ^ 2 - (1e-3 : ℝ) ^ 2) - 3))) := by
    linarith [hu1, hw2]
  have hFBhi : 3 * Real.arcsin 1e-3 +
      ((1 - (1e-3 : ℝ) ^ 2) - (1e-3 : ℝ) ^ 2) *
        (1e-3 * (Real.sqrt (1 - (1e-3 : ℝ) ^ 2) *
          (8 * (((1e-3 : ℝ) ^ 2) ^ 2 - (1e-3 : ℝ) ^ 2) - 3))) ≤ 2.56004e-14 := by
    linarith [hu2, hw1]
  have hGBlo : (4.712369 : ℝ) ≤
      (8 * ((1e-3 : ℝ) ^ 2) ^ 2 - 4 * (1e-3 : ℝ) ^ 2 + 1) *
          (Real.pi / 2 - Real.arcsin 1e-3) * 3 -
        Real.sqrt (1 - (1e-3 : ℝ) ^ 2) * (4 * (1e-3 : ℝ) ^ 2 - 1) *
          (2 * (1e-3 : ℝ) ^ 2 + 3) * 1e-3 := by
    linarith [hpi1, hu2, hw1]
  have hGBhi : (8 * ((1e-3 : ℝ) ^ 2) ^ 2 - 4 * (1e-3 : ℝ) ^ 2 + 1) *
          (Real.pi / 2 - Real.arcsin 1e-3) * 3 -
        Real.sqrt (1 - (1e-3 : ℝ) ^ 2) * (4 * (1e-3 : ℝ) ^ 2 - 1) *
          (2 * (1e-3 : ℝ) ^ 2 + 3) * 1e-3 ≤ 4.712371 := by
    linarith [hpi2, hu1, hw2]
  have hbXlo : (0 : ℝ) < (1 - (1e-3 : ℝ) ^ 2) ^ 2 * Real.sqrt (1 - (1e-3 : ℝ) ^ 2) :=
    mul_pos (by norm_num) hwpos
  have hXQlo : (1.0000024e15 : ℝ) ≤
      ((1 - (1e-3 : ℝ) ^ 2) ^ 2 * Real.sqrt (1 - (1e-3 : ℝ) ^ 2))⁻¹ *
        ((1e-3 : ℝ) ^ 5)⁻¹ := by
    have hb : (1 - (1e-3 : ℝ) ^ 2) ^ 2 * Real.sqrt (1 - (1e-3 : ℝ) ^ 2) ≤
        (1 - (1e-3 : ℝ) ^ 2) ^ 2 * 0.9999994999998751 := by linarith [hw2]
    have hinv : ((1 - (1e-3 : ℝ) ^ 2) ^ 2 * 0.9999994999998751)⁻¹ ≤
        ((1 - (1e-3 : ℝ) ^ 2) ^ 2 * Real.sqrt (1 - (1e-3 : ℝ) ^ 2))⁻¹ :=
      inv_anti₀ hbXlo hb
    have hlit : (1.0000024e15 : ℝ) ≤
        ((1 - (1e-3 : ℝ) ^ 2) ^ 2 * 0.9999994999998751)⁻¹ * ((1e-3 : ℝ) ^ 5)⁻¹ := by
      norm_num
    calc (1.0000024e15 : ℝ) ≤
        ((1 - (1e-3 : ℝ) ^ 2) ^ 2 * 0.9999994999998751)⁻¹ * ((1e-3 : ℝ) ^ 5)⁻¹ := hlit
      _ ≤ ((1 - (1e-3 : ℝ) ^ 2) ^ 2 * Real.sqrt (1 - (1e-3 : ℝ) ^ 2))⁻¹ *
          ((1e-3 : ℝ) ^ 5)⁻¹ :=
        mul_le_mul_of_nonneg_right hinv (by norm_num)
  have hXQhi : ((1 - (1e-3 : ℝ) ^ 2) ^ 2 * Real.sqrt (1 - (1e-3 : ℝ) ^ 2))⁻¹ *
        ((1e-3 : ℝ) ^ 5)⁻¹ ≤ 1.0000026e15 := by
    have hb : (1 - (1e-3 : ℝ) ^ 2) ^ 2 * 0.9999994999998749 ≤
        (1 - (1e-3 : ℝ) ^ 2) ^ 2 * Real.sqrt (1 - (1e-3 : ℝ) ^ 2) := by linarith [hw1]
    have hinv : ((1 - (1e-3 : ℝ) ^ 2) ^ 2 * Real.sqrt (1 - (1e-3 : ℝ) ^ 2))⁻¹ ≤
        ((1 - (1e-3 : ℝ) ^ 2) ^ 2 * 0.9999994999998749)⁻¹ :=
      inv_anti₀ (by norm_num) hb
    have hlit : ((1 - (1e-3 : ℝ) ^ 2) ^ 2 * 0.9999994999998749)⁻¹ *
        ((1e-3 : ℝ) ^ 5)⁻¹ ≤ 1.0000026e15 := by
      norm_num
    calc ((1 - (1e-3 : ℝ) ^ 2) ^ 2 * Real.sqrt (1 - (1e-3 : ℝ) ^ 2))⁻¹ *
          ((1e-3 : ℝ) ^ 5)⁻¹ ≤
        ((1 - (1e-3 : ℝ) ^ 2) ^ 2 * 0.9999994999998749)⁻¹ * ((1e-3 : ℝ) ^ 5)⁻¹ :=
        mul_le_mul_of_nonneg_right hinv (by norm_num)
      _ ≤ 1.0000026e15 := hlit
  have hFBpos : (0 : ℝ) ≤ 3 * Real.arcsin 1e-3 +
      ((1 - (1e-3 : ℝ) ^ 2) - (1e-3 : ℝ) ^ 2) *
        (1e-3 * (Real.sqrt (1 - (1e-3 : ℝ) ^ 2) *
          (8 * (((1e-3 : ℝ) ^ 2) ^ 2 - (1e-3 : ℝ) ^ 2) - 3))) := by
    linarith [hFBlo]
  have hGBpos : (0 : ℝ) ≤
      (8 * ((1e-3 : ℝ) ^ 2) ^ 2 - 4 * (1e-3 : ℝ) ^ 2 + 1) *
          (Real.pi / 2 - Real.arcsin 1e-3) * 3 -
        Real.sqrt (1 - (1e-3 : ℝ) ^ 2) * (4 * (1e-3 : ℝ) ^ 2 - 1) *
          (2 * (1e-3 : ℝ) ^ 2 + 3) * 1e-3 := by
    linarith [hGBlo]
  have hXQpos : (0 : ℝ) ≤
      ((1 - (1e-3 : ℝ) ^ 2) ^ 2 * Real.sqrt (1 - (1e-3 : ℝ) ^ 2))⁻¹ *
        ((1e-3 : ℝ) ^ 5)⁻¹ := by
    linarith [hXQlo]
  have hNhi : (3 * Real.arcsin 1e-3 +
        ((1 - (1e-3 : ℝ) ^ 2) - (1e-3 : ℝ) ^ 2) *
          (1e-3 * (Real.sqrt (1 - (1e-3 : ℝ) ^ 2) *
            (8 * (((1e-3 : ℝ) ^ 2) ^ 2 - (1e-3 : ℝ) ^ 2) - 3)))) *
      ((8 * ((1e-3 : ℝ) ^ 2) ^ 2 - 4 * (1e-3 : ℝ) ^ 2 + 1) *
          (Real.pi / 2 - Real.arcsin 1e-3) * 3 -
        Real.sqrt (1 - (1e-3 : ℝ) ^ 2) * (4 * (1e-3 : ℝ) ^ 2 - 1) *
          (2 * (1e-3 : ℝ) ^ 2 + 3) * 1e-3) *
      (((1 - (1e-3 : ℝ) ^ 2) ^ 2 * Real.sqrt (1 - (1e-3 : ℝ) ^ 2))⁻¹ *
        ((1e-3 : ℝ) ^ 5)⁻¹) ≤
      2.56004e-14 * 4.712371 * 1.0000026e15 :=
    mul_le_mul (mul_le_mul hFBhi hGBhi hGBpos (by norm_num)) hXQhi hXQpos (by norm_num)
  have hNlo : (2.55996e-14 : ℝ) * 4.712369 * 1.0000024e15 ≤
      (3 * Real.arcsin 1e-3 +
        ((1 - (1e-3 : ℝ) ^ 2) - (1e-3 : ℝ) ^ 2) *
          (1e-3 * (Real.sqrt (1 - (1e-3 : ℝ) ^ 2) *
            (8 * (((1e-3 : ℝ) ^ 2) ^ 2 - (1e-3 : ℝ) ^ 2) - 3)))) *
      ((8 * ((1e-3 : ℝ) ^ 2) ^ 2 - 4 * (1e-3 : ℝ) ^ 2 + 1) *
          (Real.pi / 2 - Real.arcsin 1e-3) * 3 -
        Real.sqrt (1 - (1e-3 : ℝ) ^ 2) * (4 * (1e-3 : ℝ) ^ 2 - 1) *
          (2 * (1e-3 : ℝ) ^ 2 + 3) * 1e-3) *
      (((1 - (1e-3 : ℝ) ^ 2) ^ 2 * Real.sqrt (1 - (1e-3 : ℝ) ^ 2))⁻¹ *
        ((1e-3 : ℝ) ^ 5)⁻¹) :=
    mul_le_mul (mul_le_mul hFBlo hGBlo (by norm_num) hFBpos) hXQlo (by norm_num)
      (mul_nonneg hFBpos hGBpos)
  have h12pos : (0 : ℝ) < 12 * Real.pi := by linarith
  rw [abs_sub_le_iff]
  constructor
  · have hR2 : (3 * Real.arcsin 1e-3 +
          ((1 - (1e-3 : ℝ) ^ 2) - (1e-3 : ℝ) ^ 2) *
            (1e-3 * (Real.sqrt (1 - (1e-3 : ℝ) ^ 2) *
              (8 * (((1e-3 : ℝ) ^ 2) ^ 2 - (1e-3 : ℝ) ^ 2) - 3)))) *
        ((8 * ((1e-3 : ℝ) ^ 2) ^ 2 - 4 * (1e-3 : ℝ) ^ 2 + 1) *
            (Real.pi / 2 - Real.arcsin 1e-3) * 3 -
          Real.sqrt (1 - (1e-3 : ℝ) ^ 2) * (4 * (1e-3 : ℝ) ^ 2 - 1) *
            (2 * (1e-3 : ℝ) ^ 2 + 3) * 1e-3) *
        (((1 - (1e-3 : ℝ) ^ 2) ^ 2 * Real.sqrt (1 - (1e-3 : ℝ) ^ 2))⁻¹ *
          ((1e-3 : ℝ) ^ 5)⁻¹) / (12 * Real.pi) ≤
        101 / 100 * (16 / 5 * (1 - 18 / 7 * (1e-3 : ℝ) ^ 2)) := by
      rw [div_le_iff₀ h12pos]
      linarith [hNhi, hpi1]
    linarith [hR2]
  · have hR3 : 99 / 100 * (16 / 5 * (1 - 18 / 7 * (1e-3 : ℝ) ^ 2)) ≤
        (3 * Real.arcsin 1e-3 +
          ((1 - (1e-3 : ℝ) ^ 2) - (1e-3 : ℝ) ^ 2) *
            (1e-3 * (Real.sqrt (1 - (1e-3 : ℝ) ^ 2) *
              (8 * (((1e-3 : ℝ) ^ 2) ^ 2 - (1e-3 : ℝ) ^ 2) - 3)))) *
        ((8 * ((1e-3 : ℝ) ^ 2) ^ 2 - 4 * (1e-3 : ℝ) ^ 2 + 1) *
            (Real.pi / 2 - Real.arcsin 1e-3) * 3 -
          Real.sqrt (1 - (1e-3 : ℝ) ^ 2) * (4 * (1e-3 : ℝ) ^ 2 - 1) *
            (2 * (1e-3 : ℝ) ^ 2 + 3) * 1e-3) *
        (((1 - (1e-3 : ℝ) ^ 2) ^ 2 * Real.sqrt (1 - (1e-3 : ℝ) ^ 2))⁻¹ *
          ((1e-3 : ℝ) ^ 5)⁻¹) / (12 * Real.pi) := by
      rw [le_div_iff₀ h12pos]
      linarith [hNlo, hpi2]
    linarith [hR3]

/-- C5: per-element, `dMdE` is the product `f_of_q * g_of_q` with two
substitutions: where `1 - q < 1e-4` it returns the `_dMdE_close_to_1_`
series with prefactor `(16/35) (M/vg²)`, where `q < 1e-3` it returns the
`_dMdE_close_to_0_` series with prefactor `(16/5) (M/vg²)`, and outside both
regions it returns the direct product; at each substitution boundary
(`q = 0.9999 = 1 - 1e-4` and `q = 1e-3`) the replaced branch agrees with the
direct product to within one percent relative tolerance. -/
theorem C5_dMdE_branches (M a q : ℝ) (hM : 0 < M) (ha : 0 < a) :
    (1 - q < 1e-4 → dMdE M a q false = 16 / 35 * (M / vg M a ^ 2) * (1 - q ^ 2)) ∧
      (q < 1e-3 → dMdE M a q false = 16 / 5 * (M / vg M a ^ 2) * (1 - 18 / 7 * q ^ 2)) ∧
      (¬(q < 1e-3) → ¬(1 - q < 1e-4) →
        dMdE M a q false = f_of_q M a q * g_of_q M a q) ∧
      |f_of_q M a 0.9999 * g_of_q M a 0.9999 - dMdE_close_to_1 M a 0.9999| ≤
        1 / 100 * dMdE_close_to_1 M a 0.9999 ∧
      |f_of_q M a 1e-3 * g_of_q M a 1e-3 - dMdE_close_to_0 M a 1e-3| ≤
        1 / 100 * dMdE_close_to_0 M a 1e-3 := by
  refine ⟨?_, ?_, ?_, key_boundary_1 M a hM ha, key_boundary_0 M a hM ha⟩
  · intro h1
    have hq : ¬(q < 1e-3) := by intro hq'; linarith
    simp only [dMdE, Bool.false_eq_true, if_false]
    rw [if_neg hq, if_pos h1]
    unfold dMdE_close_to_1
    ring
  · intro h0
    simp only [dMdE, Bool.false_eq_true, if_false]
    rw [if_pos h0]
    unfold dMdE_close_to_0
    ring
  · intro h0 h1
    simp only [dMdE, Bool.false_eq_true, if_false]
    rw [if_neg h0, if_neg h1]

/-- C5 witness: the branch laws and boundary tolerances evaluated at
`M = a = 1`, `q = 1/2`. -/
theorem C5_dMdE_branches_witness :
    (1 - (1/2 : ℝ) < 1e-4 →
        dMdE 1 1 (1/2) false = 16 / 35 * (1 / vg 1 1 ^ 2) * (1 - (1/2 : ℝ) ^ 2)) ∧
      ((1/2 : ℝ) < 1e-3 →
        dMdE 1 1 (1/2) false = 16 / 5 * (1 / vg 1 1 ^ 2) * (1 - 18 / 7 * (1/2 : ℝ) ^ 2)) ∧
      (¬((1/2 : ℝ) < 1e-3) → ¬(1 - (1/2 : ℝ) < 1e-4) →
        dMdE 1 1 (1/2) false = f_of_q 1 1 (1/2) * g_of_q 1 1 (1/2)) ∧
      |f_of_q 1 1 0.9999 * g_of_q 1 1 0.9999 - dMdE_close_to_1 1 1 0.9999| ≤
        1 / 100 * dMdE_close_to_1 1 1 0.9999 ∧
      |f_of_q 1 1 1e-3 * g_of_q 1 1 1e-3 - dMdE_close_to_0 1 1 1e-3| ≤
        1 / 100 * dMdE_close_to_0 1 1 1e-3 :=
  C5_dMdE_branches 1 1 (1/2) (by norm_num) (by norm_num)

end

end Halo
